import Mathlib

/-!
Shallow embedding of the cuebridge validation pipeline (package `cuebridge`):
input acquisition (`input.go`), format dispatch (`parseData`), the per-call
orchestrator (`validate`), CUE error extraction (`extractValidationErrors`
and helpers) and the text result formatter (`FormatResults`).

The external CUE engine is opaque in the source; it is modelled here by a
`Validator` structure whose fields are the engine operations the orchestrator
calls (JSON/YAML front ends, value building, `Err()`, `LookupPath`/`Exists`,
`Unify`, `Validate(cue.Concrete(true))`), over an abstract value type `V`.
Go byte slices are `List Nat`; a nilable Go slice or reader is an `Option`;
a Go `error` return is `Option String` carrying the `Error()` text, except
for the engine's composite validation error, which is modelled structurally
(`EngineError`) because `extractValidationErrors` introspects it.
-/

set_option autoImplicit false

namespace Cuebridge

/-- Bytes of a Go `[]byte` value. -/
abbrev Bytes := List Nat

/-- A source position as exposed by `errors.Positions`: `pos.Line()` and
`pos.Column()` are Go ints. -/
structure Pos where
  line : Int
  column : Int
  deriving Repr, DecidableEq

/-- One constituent `errors.Error` of a CUE error list: its positions,
its field path (`e.Path()`) and its rendered text (`e.Error()`). -/
structure CueErr where
  positions : List Pos
  path : List String
  message : String
  deriving Repr, DecidableEq

/-- The engine error value handed to the extractor: its own `Error()` text
and the list `errors.Errors(err)` of sub-errors. -/
structure EngineError where
  message : String
  subErrors : List CueErr
  deriving Repr, DecidableEq

/-- `ValidationError` of `bridge.go`: line/column (0 = unknown), dot-joined
field path (empty = unknown) and message. -/
structure ValidationError where
  Line : Int
  Column : Int
  Path : String
  Message : String
  deriving Repr, DecidableEq

/-- `ValidationResult` of `bridge.go`. `Errors` is an `Option` because Go
distinguishes a nil slice (`none`, the zero value) from an empty but present
slice (`some []`, as built by the success path). -/
structure ValidationResult where
  Name : String
  Valid : Bool
  Errors : Option (List ValidationError)
  deriving Repr, DecidableEq

/-- `ValidationInput` of `bridge.go`. `SourceType` and `Format` are Go ints
(`SourceFile`=0, `SourceReader`=1, `SourceBytes`=2; `FormatJSON`=0,
`FormatYAML`=1 — any other int is representable, as in Go). `Reader` models
an `io.Reader`: `none` is a nil handle, `some (.ok bs)` drains to `bs`,
`some (.error e)` faults mid-stream with message `e`. `Data` models the
nilable byte slice. -/
structure ValidationInput where
  SourceType : Int
  Name : String
  FilePath : String
  Reader : Option (Except String Bytes)
  Data : Option Bytes
  Format : Int
  deriving Repr

/-- The Go constant `SourceFile`. -/
def SourceFile : Int := 0
/-- The Go constant `SourceReader`. -/
def SourceReader : Int := 1
/-- The Go constant `SourceBytes`. -/
def SourceBytes : Int := 2
/-- The Go constant `FormatJSON`. -/
def FormatJSON : Int := 0
/-- The Go constant `FormatYAML`. -/
def FormatYAML : Int := 1

/-! ### Error extraction (`errors.go`) -/

/-- Loop body of `extractLineNumber`: first position with `Line() > 0`,
else 0. -/
def firstPositiveLine : List Pos → Int
  | [] => 0
  | p :: rest => if p.line > 0 then p.line else firstPositiveLine rest

/-- Loop body of `extractColumnNumber`: first position with `Column() > 0`,
else 0. -/
def firstPositiveColumn : List Pos → Int
  | [] => 0
  | p :: rest => if p.column > 0 then p.column else firstPositiveColumn rest

/-- `extractLineNumber` of `errors.go`. -/
def extractLineNumber (e : CueErr) : Int :=
  firstPositiveLine e.positions

/-- `extractColumnNumber` of `errors.go`. -/
def extractColumnNumber (e : CueErr) : Int :=
  firstPositiveColumn e.positions

/-- `isValidPathElement` of `errors.go`: keep a segment unless it is empty,
starts with `[`, or equals `#Config`. -/
def isValidPathElement (p : String) : Bool :=
  p ≠ "" && !(p.startsWith "[") && p ≠ "#Config"

/-- `strings.Trim(p, "\x22")`: remove all leading and trailing quote
characters. -/
def trimQuotes (p : String) : String :=
  ⟨((p.toList.dropWhile (· = '"')).reverse.dropWhile (· = '"')).reverse⟩

/-- The `parts` accumulation loop of `formatPath`. -/
def formatPathParts : List String → List String
  | [] => []
  | p :: rest =>
    if isValidPathElement p then trimQuotes p :: formatPathParts rest
    else formatPathParts rest

/-- `formatPath` of `errors.go`: filter the segments through
`isValidPathElement`, trim quotes, join with `.`. -/
def formatPath (path : List String) : String :=
  String.intercalate "." (formatPathParts path)

/-- `extractFieldPath` of `errors.go`. -/
def extractFieldPath (e : CueErr) : String :=
  if e.path = [] then "" else formatPath e.path

/-- `extractSingleError` of `errors.go`. -/
def extractSingleError (e : CueErr) : ValidationError :=
  { Line := extractLineNumber e
    Column := extractColumnNumber e
    Path := extractFieldPath e
    Message := e.message }

/-- `extractValidationErrors` of `errors.go`: a flat error (no sub-errors)
becomes one synthetic record; otherwise one record per sub-error, in order. -/
def extractValidationErrors (err : EngineError) : List ValidationError :=
  if err.subErrors = [] then
    [{ Line := 0, Column := 0, Path := "", Message := err.message }]
  else
    err.subErrors.map extractSingleError

/-! ### Input acquisition (`input.go`) -/

/-- A file system, standing for `os.ReadFile`: for each path, either the
full content or the underlying error's text. -/
abbrev FileSystem := String → Except String Bytes

/-- `readFromFile` of `input.go`: wrap any underlying read error with the
path. -/
def readFromFile (fs : FileSystem) (filePath : String) : Except String Bytes :=
  match fs filePath with
  | .error e => .error ("reading file " ++ filePath ++ ": " ++ e)
  | .ok data => .ok data

/-- `readFromReader` of `input.go`: nil reader is a contract error;
otherwise `io.ReadAll` either drains the handle or faults. -/
def readFromReader (reader : Option (Except String Bytes)) : Except String Bytes :=
  match reader with
  | none => .error "reader is nil"
  | some (.error e) => .error ("reading from reader: " ++ e)
  | some (.ok data) => .ok data

/-- `readFromBytes` of `input.go`: nil slice is a contract error; a present
slice (even empty) is returned unchanged. -/
def readFromBytes (data : Option Bytes) : Except String Bytes :=
  match data with
  | none => .error "data is nil"
  | some d => .ok d

/-- `readInput` of `input.go`: dispatch on the source tag. -/
def readInput (fs : FileSystem) (input : ValidationInput) : Except String Bytes :=
  if input.SourceType = SourceFile then readFromFile fs input.FilePath
  else if input.SourceType = SourceReader then readFromReader input.Reader
  else if input.SourceType = SourceBytes then readFromBytes input.Data
  else .error ("unknown source type: " ++ toString input.SourceType)

/-! ### The Validator and the engine model -/

/-- `Validator` of `bridge.go` together with the opaque CUE engine
operations its pipeline calls, over an abstract engine value type `V`.
The evaluation context `ctx` is fixed per validator, so it is folded into
the operation fields; `defExists` and `configDef` are the (pure) result of
`compiledSchema.LookupPath(cue.ParsePath(definitionName))` and its
`Exists()`. -/
structure Validator (V : Type) where
  definitionName : String
  /-- `json.Extract(filename, data)` (`parser.go`): the engine's JSON front
  end, failing on malformed JSON with the error's text. -/
  jsonExtract : String → Bytes → Except String V
  /-- `yaml.Extract(filename, data)`: the engine's YAML front end. -/
  yamlExtract : String → Bytes → Except String V
  /-- `ctx.BuildExpr` under this validator's context. -/
  buildExpr : V → V
  /-- `ctx.BuildFile` under this validator's context. -/
  buildFile : V → V
  /-- `v.Err()` on an engine value: `none` when nil. -/
  valueErr : V → Option EngineError
  /-- `compiledSchema.LookupPath(...).Exists()`. -/
  defExists : Bool
  /-- The resolved definition value `configDef`. -/
  configDef : V
  /-- `a.Unify(b)`. -/
  unify : V → V → V
  /-- `unified.Validate(cue.Concrete(true))`: `none` on success. -/
  checkConcrete : V → Option EngineError

/-- `parseJSON` of `parser.go`. -/
def parseJSON {V : Type} (v : Validator V) (data : Bytes) (filename : String) :
    Except String V :=
  match v.jsonExtract filename data with
  | .error e => .error ("parsing JSON: " ++ e)
  | .ok expr => .ok (v.buildExpr expr)

/-- `parseYAML` of `parser.go`. -/
def parseYAML {V : Type} (v : Validator V) (data : Bytes) (filename : String) :
    Except String V :=
  match v.yamlExtract filename data with
  | .error e => .error ("parsing YAML: " ++ e)
  | .ok file => .ok (v.buildFile file)

/-- `parseData` of `parser.go`: dispatch on the format tag. -/
def parseData {V : Type} (v : Validator V) (data : Bytes) (format : Int)
    (filename : String) : Except String V :=
  if format = FormatJSON then parseJSON v data filename
  else if format = FormatYAML then parseYAML v data filename
  else .error ("unsupported format: " ++ toString format)

/-! ### The orchestrator (`validator.go`) -/

/-- `createErrorResult` of `validator.go`. -/
def createErrorResult (name : String) (message : String) : ValidationResult :=
  { Name := name
    Valid := false
    Errors := some [{ Line := 0, Column := 0, Path := "", Message := message }] }

/-- `createValidationErrorResult` of `validator.go`. -/
def createValidationErrorResult (name : String) (err : EngineError) :
    ValidationResult :=
  { Name := name
    Valid := false
    Errors := some (extractValidationErrors err) }

/-- `validate` of `validator.go`: the per-call pipeline
read → parse → Err check → definition lookup → unify → concrete check.
The second component is the Go `error` return (`none` = nil). -/
def validate {V : Type} (v : Validator V) (fs : FileSystem)
    (input : ValidationInput) : ValidationResult × Option String :=
  match readInput fs input with
  | .error e => (⟨"", false, none⟩, some ("reading input: " ++ e))
  | .ok data =>
    match parseData v data input.Format input.Name with
    | .error e => (createErrorResult input.Name ("failed to parse: " ++ e), none)
    | .ok parsedData =>
      match v.valueErr parsedData with
      | some perr => (createValidationErrorResult input.Name perr, none)
      | none =>
        if !v.defExists then
          (⟨"", false, none⟩, some ("schema does not define " ++ v.definitionName))
        else
          let unified := v.unify v.configDef parsedData
          match v.checkConcrete unified with
          | some verr => (createValidationErrorResult input.Name verr, none)
          | none => ({ Name := input.Name, Valid := true, Errors := some [] }, none)

/-! ### The result formatter (`format.go`) -/

/-- `formatError` of `format.go`: one indented line per error, the branch
chosen by which of line/path are present, combined case first. -/
def formatError (err : ValidationError) : String :=
  if err.Line > 0 && err.Path ≠ "" then
    "  line " ++ toString err.Line ++ ", field \"" ++ err.Path ++ "\": "
      ++ err.Message ++ "\n"
  else if err.Line > 0 then
    "  line " ++ toString err.Line ++ ": " ++ err.Message ++ "\n"
  else if err.Path ≠ "" then
    "  field \"" ++ err.Path ++ "\": " ++ err.Message ++ "\n"
  else
    "  " ++ err.Message ++ "\n"

/-- `formatSingleResult` of `format.go` (its appends to the builder, as one
string). Iterating a nil `Errors` slice produces nothing, as in Go. -/
def formatSingleResult (result : ValidationResult) : String :=
  if result.Valid then
    result.Name ++ ": ok\n"
  else
    "FAIL: " ++ result.Name ++ "\n"
      ++ String.join ((result.Errors.getD []).map formatError)

/-- `FormatResults` of `format.go`. -/
def FormatResults (results : List ValidationResult) : String :=
  String.join (results.map formatSingleResult)

/-! ### Concrete instances used to exercise the pipeline -/

/-- A concrete validator over the trivial engine value `Unit`: every engine
operation succeeds. -/
def unitValidator : Validator Unit :=
  { definitionName := "#Config"
    jsonExtract := fun _ _ => .ok ()
    yamlExtract := fun _ _ => .ok ()
    buildExpr := id
    buildFile := id
    valueErr := fun _ => none
    defExists := true
    configDef := ()
    unify := fun _ _ => ()
    checkConcrete := fun _ => none }

/-- A validator whose JSON front end always reports a syntax error. -/
def jsonFailValidator : Validator Unit :=
  { unitValidator with jsonExtract := fun _ _ => .error "unexpected end of JSON input" }

/-- A file system with no readable files. -/
def emptyFs : FileSystem := fun _ => .error "no such file"

/-- A file system holding one YAML config file. -/
def oneFileFs : FileSystem :=
  fun p => if p = "config.yaml" then .ok [110, 58, 32, 34] else .error "no such file"

/-! ### Helper lemmas -/

theorem extractValidationErrors_ne_nil (err : EngineError) :
    extractValidationErrors err ≠ [] := by
  unfold extractValidationErrors
  split
  · simp
  · next h => simpa using h

theorem firstPositiveLine_eq_find (ps : List Pos) :
    firstPositiveLine ps = ((ps.find? (fun p => p.line > 0)).map Pos.line).getD 0 := by
  induction ps with
  | nil => rfl
  | cons p rest ih =>
    by_cases h : p.line > 0 <;> simp [firstPositiveLine, List.find?, h, ih]

theorem firstPositiveColumn_eq_find (ps : List Pos) :
    firstPositiveColumn ps = ((ps.find? (fun p => p.column > 0)).map Pos.column).getD 0 := by
  induction ps with
  | nil => rfl
  | cons p rest ih =>
    by_cases h : p.column > 0 <;> simp [firstPositiveColumn, List.find?, h, ih]

theorem formatPathParts_eq_filter_map (path : List String) :
    formatPathParts path = (path.filter isValidPathElement).map trimQuotes := by
  induction path with
  | nil => rfl
  | cons p rest ih =>
    by_cases h : isValidPathElement p <;>
      simp [formatPathParts, List.filter_cons, h, ih]

/-! ### Claim theorems -/

/-- Claim C5: for every engine error value passed to the extractor: with zero
sub-errors it returns exactly one record `(0, 0, "", full text)`; otherwise
one record per sub-error in original order, the line being the first reported
position with a strictly positive line number (else 0) and the column the
first with a strictly positive column number (else 0); and the output is
never empty. -/
theorem extractValidationErrors_spec (err : EngineError) :
    (err.subErrors = [] →
      extractValidationErrors err =
        [{ Line := 0, Column := 0, Path := "", Message := err.message }]) ∧
    (err.subErrors ≠ [] →
      extractValidationErrors err = err.subErrors.map (fun e =>
        { Line := ((e.positions.find? (fun p => p.line > 0)).map Pos.line).getD 0
          Column := ((e.positions.find? (fun p => p.column > 0)).map Pos.column).getD 0
          Path := extractFieldPath e
          Message := e.message })) ∧
    extractValidationErrors err ≠ [] := by
  refine ⟨fun h => by simp [extractValidationErrors, h],
          fun h => ?_, extractValidationErrors_ne_nil err⟩
  have hfun : extractSingleError = fun e =>
      ({ Line := ((e.positions.find? (fun p => p.line > 0)).map Pos.line).getD 0
         Column := ((e.positions.find? (fun p => p.column > 0)).map Pos.column).getD 0
         Path := extractFieldPath e
         Message := e.message } : ValidationError) := by
    funext e
    simp [extractSingleError, extractLineNumber, extractColumnNumber,
      firstPositiveLine_eq_find, firstPositiveColumn_eq_find]
  simp [extractValidationErrors, h, hfun]

/-- Claim C5 witness: a flat engine error with no sub-errors yields exactly
the single synthetic record. -/
theorem extractValidationErrors_spec_witness :
    extractValidationErrors { message := "overall failure", subErrors := [] } =
      [{ Line := 0, Column := 0, Path := "", Message := "overall failure" }] :=
  (extractValidationErrors_spec { message := "overall failure", subErrors := [] }).1 rfl

/-- Claim C6: the extracted path string is the dot-join of the segments that
survive dropping every segment that is empty, begins with `[`, or equals the
literal `#Config`, with surrounding quote characters stripped from each
retained segment. (The filter is hard-coded: `formatPath` does not depend on
the definition name the validator was constructed with.) -/
theorem formatPath_spec (segs : List String) :
    formatPath segs = String.intercalate "."
      ((segs.filter (fun p =>
        !(p = "" || p.startsWith "[" || p = "#Config"))).map trimQuotes) := by
  have hpred : (fun p => !(p = "" || p.startsWith "[" || p = "#Config")) =
      isValidPathElement := by
    funext p
    simp [isValidPathElement, Bool.not_or, decide_not, Bool.and_assoc]
  rw [formatPath, formatPathParts_eq_filter_map, hpred]

/-- Claim C8: for the buffer source, acquisition fails with the contract
error exactly when the buffer is absent and otherwise returns the buffer
unchanged (an empty-but-present buffer included); for the stream source,
acquisition fails with the contract error exactly when the handle is absent,
and a present handle is drained completely. -/
theorem readFromBytes_readFromReader_contract :
    (∀ d : Option Bytes, (∃ e, readFromBytes d = .error e) ↔ d = none) ∧
    readFromBytes none = .error "data is nil" ∧
    (∀ bs : Bytes, readFromBytes (some bs) = .ok bs) ∧
    (∀ r : Option (Except String Bytes),
      readFromReader r = .error "reader is nil" ↔ r = none) ∧
    (∀ bs : Bytes, readFromReader (some (.ok bs)) = .ok bs) := by
  refine ⟨fun d => ?_, rfl, fun bs => rfl, fun r => ?_, fun bs => rfl⟩
  · cases d <;> simp [readFromBytes]
  · rcases r with _ | (e | bs)
    · simp [readFromReader]
    · constructor
      · intro h
        have h' : "reading from reader: " ++ e = "reader is nil" :=
          Except.error.inj h
        have hlen := congrArg String.length h'
        rw [String.length_append] at hlen
        have h21 : ("reading from reader: ").length = 21 := by decide
        have h13 : ("reader is nil").length = 13 := by decide
        omega
      · intro h; cases h
    · simp [readFromReader]

/-- Claim C8 witness: an empty-but-present buffer is returned as-is, and a
nil stream handle is the contract error. -/
theorem readFromBytes_readFromReader_contract_witness :
    readFromBytes (some []) = .ok [] ∧
    readFromReader none = .error "reader is nil" :=
  ⟨readFromBytes_readFromReader_contract.2.2.1 [],
   (readFromBytes_readFromReader_contract.2.2.2.1 none).mpr rfl⟩

/-- Claim C1 (refuted by evaluation): for a format tag that is neither JSON
nor YAML, `validate` returns a failing `ValidationResult` carrying the
unsupported-format text with a nil process error — not the non-nil
process-level error the claim (and `Validate`'s own doc comment in
`bridge.go`) describes. -/
theorem validate_unsupported_format_eval :
    validate unitValidator emptyFs
        { SourceType := 2, Name := "cfg", FilePath := "", Reader := none,
          Data := some [123, 125], Format := 2 } =
      ({ Name := "cfg", Valid := false,
         Errors := some [⟨0, 0, "", "failed to parse: unsupported format: 2"⟩] },
       none) := by
  decide

/-- Claim C2: every `validate` call ends in exactly one of three outcomes —
nil process error with `Valid = true` and an empty (present) error slice,
nil process error with `Valid = false` and at least one error record, or a
non-nil process error; a nil process error is never paired with a failing
result holding zero error records. -/
theorem validate_outcome_trichotomy {V : Type} (v : Validator V)
    (fs : FileSystem) (input : ValidationInput) :
    (((validate v fs input).2 = none ∧ (validate v fs input).1.Valid = true ∧
        (validate v fs input).1.Errors = some []) ∨
     ((validate v fs input).2 = none ∧ (validate v fs input).1.Valid = false ∧
        ∃ x xs, (validate v fs input).1.Errors = some (x :: xs)) ∨
     (validate v fs input).2 ≠ none) ∧
    ¬((validate v fs input).2 = none ∧ (validate v fs input).1.Valid = false ∧
        ((validate v fs input).1.Errors.getD []) = []) := by
  unfold validate
  cases hr : readInput fs input with
  | error e => simp [hr]
  | ok data =>
    cases hp : parseData v data input.Format input.Name with
    | error e => simp [hr, hp, createErrorResult]
    | ok parsed =>
      cases hv : v.valueErr parsed with
      | some perr =>
        rcases List.exists_cons_of_ne_nil (extractValidationErrors_ne_nil perr)
          with ⟨x, xs, hx⟩
        simp [hr, hp, hv, createValidationErrorResult, hx]
      | none =>
        cases hd : v.defExists with
        | false => simp [hr, hp, hv, hd]
        | true =>
          cases hc : v.checkConcrete (v.unify v.configDef parsed) with
          | some verr =>
            rcases List.exists_cons_of_ne_nil (extractValidationErrors_ne_nil verr)
              with ⟨x, xs, hx⟩
            simp [hr, hp, hv, hd, hc, createValidationErrorResult, hx]
          | none => simp [hr, hp, hv, hd, hc]

/-- Claim C2 witness: on a concrete process-error call (nil reader handle),
the nil-error-with-empty-failing-result combination is excluded. -/
theorem validate_outcome_trichotomy_witness :
    ¬((validate unitValidator emptyFs
        { SourceType := 1, Name := "cfg", FilePath := "", Reader := none,
          Data := none, Format := 0 }).2 = none ∧
      (validate unitValidator emptyFs
        { SourceType := 1, Name := "cfg", FilePath := "", Reader := none,
          Data := none, Format := 0 }).1.Valid = false ∧
      ((validate unitValidator emptyFs
        { SourceType := 1, Name := "cfg", FilePath := "", Reader := none,
          Data := none, Format := 0 }).1.Errors.getD []) = []) :=
  (validate_outcome_trichotomy unitValidator emptyFs
    { SourceType := 1, Name := "cfg", FilePath := "", Reader := none,
      Data := none, Format := 0 }).2

/-- Claim C3: when the bytes are read successfully but the declared format's
front end reports a syntax error, `validate` returns a nil process error and
a failing result with exactly one synthetic record `(0, 0, "", message)`
describing the parse failure. -/
theorem validate_parse_syntax_failure {V : Type} (v : Validator V)
    (fs : FileSystem) (input : ValidationInput) (data : Bytes) (e : String)
    (hread : readInput fs input = .ok data)
    (hfail : (input.Format = FormatJSON ∧ v.jsonExtract input.Name data = .error e) ∨
             (input.Format = FormatYAML ∧ v.yamlExtract input.Name data = .error e)) :
    validate v fs input =
      ({ Name := input.Name, Valid := false,
         Errors := some [⟨0, 0, "",
           "failed to parse: " ++
             ((if input.Format = FormatJSON then "parsing JSON: "
               else "parsing YAML: ") ++ e)⟩] },
       none) := by
  rcases hfail with ⟨hf, hx⟩ | ⟨hf, hx⟩ <;>
    simp [validate, hread, parseData, parseJSON, parseYAML, hf, hx,
      createErrorResult, FormatJSON, FormatYAML]

/-- Claim C3 witness: a malformed JSON buffer yields the single synthetic
parse-failure record and a nil process error. -/
theorem validate_parse_syntax_failure_witness :
    validate jsonFailValidator emptyFs
        { SourceType := 2, Name := "cfg", FilePath := "", Reader := none,
          Data := some [123], Format := 0 } =
      ({ Name := "cfg", Valid := false,
         Errors := some
           [⟨0, 0, "", "failed to parse: parsing JSON: unexpected end of JSON input"⟩] },
       none) := by
  have h := validate_parse_syntax_failure jsonFailValidator emptyFs
    { SourceType := 2, Name := "cfg", FilePath := "", Reader := none,
      Data := some [123], Format := 0 }
    [123] "unexpected end of JSON input" rfl (Or.inl ⟨rfl, rfl⟩)
  exact h.trans (by decide)

/-- `validate` reads its input only through `readInput`, the format tag and
the name, so inputs agreeing there are indistinguishable. -/
theorem validate_congr {V : Type} (v : Validator V) (fs : FileSystem)
    (i1 i2 : ValidationInput) (hname : i1.Name = i2.Name)
    (hfmt : i1.Format = i2.Format)
    (hread : readInput fs i1 = readInput fs i2) :
    validate v fs i1 = validate v fs i2 := by
  unfold validate
  rw [hread, hname, hfmt]

/-- Claim C4: a file whose content is `bs`, a stream handle draining to
`bs`, and a present buffer holding `bs` are observationally equivalent
inputs: with the same name and format tag, `validate` returns the same
(result, process error) pair for all three, whatever the unused payload
fields hold. -/
theorem validate_source_equivalence {V : Type} (v : Validator V)
    (fs : FileSystem) (name : String) (format : Int) (path : String)
    (bs : Bytes) (rdr1 : Option (Except String Bytes)) (dat1 : Option Bytes)
    (path2 : String) (dat2 : Option Bytes) (path3 : String)
    (rdr3 : Option (Except String Bytes))
    (hfile : fs path = .ok bs) :
    validate v fs
        { SourceType := SourceFile, Name := name, FilePath := path,
          Reader := rdr1, Data := dat1, Format := format } =
      validate v fs
        { SourceType := SourceReader, Name := name, FilePath := path2,
          Reader := some (.ok bs), Data := dat2, Format := format } ∧
    validate v fs
        { SourceType := SourceFile, Name := name, FilePath := path,
          Reader := rdr1, Data := dat1, Format := format } =
      validate v fs
        { SourceType := SourceBytes, Name := name, FilePath := path3,
          Reader := rdr3, Data := some bs, Format := format } := by
  refine ⟨validate_congr v fs _ _ rfl rfl ?_, validate_congr v fs _ _ rfl rfl ?_⟩ <;>
    simp [readInput, readFromFile, readFromReader, readFromBytes, hfile,
      SourceFile, SourceReader, SourceBytes]

/-- Claim C4 witness: the same YAML bytes through a file and through a
stream handle give identical (result, error) pairs. -/
theorem validate_source_equivalence_witness :
    validate unitValidator oneFileFs
        { SourceType := 0, Name := "cfg", FilePath := "config.yaml",
          Reader := none, Data := none, Format := 1 } =
      validate unitValidator oneFileFs
        { SourceType := 1, Name := "cfg", FilePath := "",
          Reader := some (.ok [110, 58, 32, 34]), Data := none, Format := 1 } :=
  (validate_source_equivalence unitValidator oneFileFs "cfg" 1 "config.yaml"
    [110, 58, 32, 34] none none "" none "" none rfl).1

/-- Claim C7: per formatted error exactly one of four lines is produced,
the combined line-and-path form taking priority; a valid result renders as
`<name>: ok` and an invalid one as `FAIL: <name>` followed by its errors in
original order. -/
theorem format_branch_spec (e : ValidationError) (r : ValidationResult) :
    (e.Line > 0 → e.Path ≠ "" →
      formatError e = "  line " ++ toString e.Line ++ ", field \"" ++ e.Path
        ++ "\": " ++ e.Message ++ "\n") ∧
    (e.Line > 0 → e.Path = "" →
      formatError e = "  line " ++ toString e.Line ++ ": " ++ e.Message ++ "\n") ∧
    (e.Line = 0 → e.Path ≠ "" →
      formatError e = "  field \"" ++ e.Path ++ "\": " ++ e.Message ++ "\n") ∧
    (e.Line = 0 → e.Path = "" →
      formatError e = "  " ++ e.Message ++ "\n") ∧
    (r.Valid = true → formatSingleResult r = r.Name ++ ": ok\n") ∧
    (r.Valid = false →
      formatSingleResult r = "FAIL: " ++ r.Name ++ "\n"
        ++ String.join ((r.Errors.getD []).map formatError)) := by
  refine ⟨fun h1 h2 => ?_, fun h1 h2 => ?_, fun h1 h2 => ?_, fun h1 h2 => ?_,
          fun h => ?_, fun h => ?_⟩ <;>
    simp [formatError, formatSingleResult, *]

/-- Claim C7 witness: the four branch shapes at concrete errors and the two
result headers at concrete results. -/
theorem format_branch_spec_witness :
    formatError { Line := 5, Column := 0, Path := "replicas", Message := "bad" } =
      "  line 5, field \"replicas\": bad\n" ∧
    formatError { Line := 5, Column := 0, Path := "", Message := "bad" } =
      "  line 5: bad\n" ∧
    formatError { Line := 0, Column := 0, Path := "replicas", Message := "bad" } =
      "  field \"replicas\": bad\n" ∧
    formatError { Line := 0, Column := 0, Path := "", Message := "bad" } =
      "  bad\n" ∧
    formatSingleResult { Name := "cfg", Valid := true, Errors := some [] } =
      "cfg: ok\n" :=
  ⟨((format_branch_spec { Line := 5, Column := 0, Path := "replicas", Message := "bad" }
      { Name := "cfg", Valid := true, Errors := some [] }).1
      (by decide) (by decide)).trans (by decide),
   ((format_branch_spec { Line := 5, Column := 0, Path := "", Message := "bad" }
      { Name := "cfg", Valid := true, Errors := some [] }).2.1
      (by decide) (by decide)).trans (by decide),
   ((format_branch_spec { Line := 0, Column := 0, Path := "replicas", Message := "bad" }
      { Name := "cfg", Valid := true, Errors := some [] }).2.2.1
      (by decide) (by decide)).trans (by decide),
   ((format_branch_spec { Line := 0, Column := 0, Path := "", Message := "bad" }
      { Name := "cfg", Valid := true, Errors := some [] }).2.2.2.1
      (by decide) (by decide)).trans (by decide),
   ((format_branch_spec { Line := 0, Column := 0, Path := "", Message := "bad" }
      { Name := "cfg", Valid := true, Errors := some [] }).2.2.2.2.1 rfl).trans
      (by decide)⟩

/-- Claim C9: whenever `validate` returns a non-nil process error, the
accompanying result is the zero value: empty name, `Valid = false`, nil
error slice — the input's name is not echoed. -/
theorem validate_error_zero_result {V : Type} (v : Validator V)
    (fs : FileSystem) (input : ValidationInput) (e : String)
    (h : (validate v fs input).2 = some e) :
    (validate v fs input).1 = { Name := "", Valid := false, Errors := none } := by
  unfold validate at h ⊢
  cases hr : readInput fs input with
  | error e2 => simp [hr]
  | ok data =>
    cases hp : parseData v data input.Format input.Name with
    | error e2 => simp [hr, hp] at h
    | ok parsed =>
      cases hv : v.valueErr parsed with
      | some perr => simp [hr, hp, hv] at h
      | none =>
        cases hd : v.defExists with
        | false => simp [hr, hp, hv, hd]
        | true =>
          cases hc : v.checkConcrete (v.unify v.configDef parsed) with
          | some verr => simp [hr, hp, hv, hd, hc] at h
          | none => simp [hr, hp, hv, hd, hc] at h

/-- Claim C9 witness: a missing file produces a process error alongside the
zero-valued result. -/
theorem validate_error_zero_result_witness :
    (validate unitValidator emptyFs
      { SourceType := 0, Name := "cfg", FilePath := "missing.yaml",
        Reader := none, Data := none, Format := 0 }).1 =
      { Name := "", Valid := false, Errors := none } :=
  validate_error_zero_result unitValidator emptyFs
    { SourceType := 0, Name := "cfg", FilePath := "missing.yaml",
      Reader := none, Data := none, Format := 0 }
    "reading input: reading file missing.yaml: no such file" (by decide)

end Cuebridge
